import Mathlib

/-!
# Verification of the RGB-to-depth correlation pipeline

Shallow embedding of `ros_kortex_vision/scripts/yolo_depth2.py`
(class `YOLOv5ROSNode`): the depth ingestion callback, the projection
routine `project_rgb_to_depth`, and the detection-filtering loop of
`image_callback`.  Machine reals are modelled by `ℚ`; Python `int()`
is truncation toward zero; the node's mutable `self.depth_image`
field is explicit state of type `Option DepthFrame`.
-/

namespace YoloDepth

/-- Python `int()` applied to a real value: truncation toward zero. -/
def pyInt (q : ℚ) : ℤ := if 0 ≤ q then ⌊q⌋ else ⌈q⌉

/-- A decoded depth frame as held in `self.depth_image`: a numpy array of
shape `(height, width)` whose entries are depths in meters; `samples j i`
is the entry `depth_image[j, i]` (row `j`, column `i`). -/
structure DepthFrame where
  height : ℕ
  width : ℕ
  samples : ℕ → ℕ → ℚ

/-- A raw depth message as received by `depth_callback`: its declared
encoding and dimensions, and the result of `bridge.imgmsg_to_cv2` on it
(`none` models a decode that raises: malformed buffer, size mismatch). -/
structure DepthMsg where
  encoding : String
  height : ℕ
  width : ℕ
  decoded : Option (ℕ → ℕ → ℚ)

set_option linter.unusedVariables false in
/-- `YOLOv5ROSNode.depth_callback`, as a transition on the stored
`self.depth_image`.  On `16UC1` the decoded array is scaled by `0.001`
(mm → m); on `32FC1` it is stored as-is; any other encoding executes
`self.depth_image = None` (and the subsequent `.shape` log line raises,
whose handler assigns `None` again); a decode exception reaches the
handler, which also assigns `None`.  The previous state is never kept on
any path. -/
def depth_callback (st : Option DepthFrame) (msg : DepthMsg) : Option DepthFrame :=
  if msg.encoding = "16UC1" then
    match msg.decoded with
    | some raw => some ⟨msg.height, msg.width, fun j i => raw j i * (1 / 1000)⟩
    | none => none
  else if msg.encoding = "32FC1" then
    match msg.decoded with
    | some raw => some ⟨msg.height, msg.width, raw⟩
    | none => none
  else
    none

/-- `fx_rgb` in `project_rgb_to_depth` (color focal length x). -/
def fx_rgb : ℚ := 129767 / 100

/-- `fy_rgb` in `project_rgb_to_depth` (color focal length y). -/
def fy_rgb : ℚ := 129863 / 100

/-- `cx_rgb` in `project_rgb_to_depth` (color principal point x). -/
def cx_rgb : ℚ := 62091 / 100

/-- `cy_rgb` in `project_rgb_to_depth` (color principal point y). -/
def cy_rgb : ℚ := 23828 / 100

/-- `fx_depth` in `project_rgb_to_depth` (depth focal length x). -/
def fx_depth : ℚ := 36001 / 100

/-- `fy_depth` in `project_rgb_to_depth` (depth focal length y). -/
def fy_depth : ℚ := 36001 / 100

/-- `cx_depth` in `project_rgb_to_depth` (depth principal point x). -/
def cx_depth : ℚ := 24387 / 100

/-- `cy_depth` in `project_rgb_to_depth` (depth principal point y). -/
def cy_depth : ℚ := 13792 / 100

/-- `YOLOv5ROSNode.project_rgb_to_depth`, reading a fixed snapshot
`depth_image` of the store.  Returns `(-1, -1, -1)` when the store is
empty, when the pixel fails the bounds test against the depth frame's
own shape, or when the sample `Z` is not `> 0`; otherwise back-projects
through the color intrinsics (`X`, `Y` of lines 74-75) and truncates the
depth-camera reprojection with Python `int()`. -/
def project (depth_image : Option DepthFrame) (center_x_rgb center_y_rgb : ℤ) :
    ℤ × ℤ × ℚ :=
  match depth_image with
  | none => (-1, -1, -1)
  | some f =>
    if 0 ≤ center_x_rgb ∧ center_x_rgb < (f.width : ℤ) ∧
        0 ≤ center_y_rgb ∧ center_y_rgb < (f.height : ℤ) then
      if 0 < f.samples center_y_rgb.toNat center_x_rgb.toNat then
        (pyInt ((((center_x_rgb : ℚ) - cx_rgb) *
              f.samples center_y_rgb.toNat center_x_rgb.toNat / fx_rgb) *
            fx_depth / f.samples center_y_rgb.toNat center_x_rgb.toNat + cx_depth),
         pyInt ((((center_y_rgb : ℚ) - cy_rgb) *
              f.samples center_y_rgb.toNat center_x_rgb.toNat / fy_rgb) *
            fy_depth / f.samples center_y_rgb.toNat center_x_rgb.toNat + cy_depth),
         f.samples center_y_rgb.toNat center_x_rgb.toNat)
      else (-1, -1, -1)
    else (-1, -1, -1)

/-- The back-projection `X` of line 74 of `project_rgb_to_depth`. -/
def backProjectX (x Z : ℚ) : ℚ := (x - cx_rgb) * Z / fx_rgb

/-- The back-projection `Y` of line 75 of `project_rgb_to_depth`. -/
def backProjectY (y Z : ℚ) : ℚ := (y - cy_rgb) * Z / fy_rgb

/-- Modelled from the spec: the inverse x pinhole projection through the
color intrinsics (`X * focalX_color / Z + principalX_color`), the
spec's round-trip test map; it appears in no source function. -/
def colorReprojectX (X Z : ℚ) : ℚ := X * fx_rgb / Z + cx_rgb

/-- Modelled from the spec: the inverse y pinhole projection through the
color intrinsics (`Y * focalY_color / Z + principalY_color`). -/
def colorReprojectY (Y Z : ℚ) : ℚ := Y * fy_rgb / Z + cy_rgb

/-- A detection row of `results.xyxy[0]`: bounding box, confidence, class
id (already truncated by `int(cls)` / `map(int, xyxy)`). -/
structure Detection where
  x1 : ℤ
  y1 : ℤ
  x2 : ℤ
  y2 : ℤ
  conf : ℚ
  cls : ℤ

/-- The detection loop of `image_callback`: skip every row whose class id
is not `41`, and for each retained box call `project_rgb_to_depth` at the
integer center `((x1+x2)//2, (y1+y2)//2)` (Python floor division). -/
def processDetections (st : Option DepthFrame) :
    List Detection → List (Detection × (ℤ × ℤ × ℚ))
  | [] => []
  | d :: rest =>
    if d.cls ≠ 41 then processDetections st rest
    else
      (d, project st ((d.x1 + d.x2).fdiv 2) ((d.y1 + d.y2).fdiv 2)) ::
        processDetections st rest

/-- `self.depth_image` as set by `YOLOv5ROSNode.__init__`. -/
def initial_depth_image : Option DepthFrame := none

/-- Outcome of one execution of `project_rgb_to_depth` whose reads of
`self.depth_image` may observe different values: `ok` a returned triple,
or `exn`, an exception escaping the method (it is then caught by
`image_callback`'s handler, abandoning the color frame). -/
inductive RunResult where
  | ok : ℤ × ℤ × ℚ → RunResult
  | exn : RunResult
deriving DecidableEq

/-- `project_rgb_to_depth` with the store value supplied separately at
each attribute read of `self.depth_image` (the depth callback runs in
another thread and may replace the field between any two reads):
`reads 0` is the `is None` test, `reads 1` the `.shape[1]` bound,
`reads 2` the `.shape[0]` bound, `reads 3` the indexing `[y, x]`.
A `none` at reads 1-3 raises `AttributeError`; an index at or past the
frame's shape raises numpy's `IndexError`.  Python's chained comparison
short-circuits, so `.shape[1]` is read only once `0 <= x` holds and
`.shape[0]` only once `x < shape[1]` and `0 <= y` hold. -/
def projectReads (reads : ℕ → Option DepthFrame) (x y : ℤ) : RunResult :=
  match reads 0 with
  | none => .ok (-1, -1, -1)
  | some _ =>
    if 0 ≤ x then
      match reads 1 with
      | none => .exn
      | some f1 =>
        if x < (f1.width : ℤ) then
          if 0 ≤ y then
            match reads 2 with
            | none => .exn
            | some f2 =>
              if y < (f2.height : ℤ) then
                match reads 3 with
                | none => .exn
                | some f3 =>
                  if y.toNat < f3.height ∧ x.toNat < f3.width then
                    if 0 < f3.samples y.toNat x.toNat then
                      .ok (pyInt ((((x : ℚ) - cx_rgb) * f3.samples y.toNat x.toNat / fx_rgb) *
                              fx_depth / f3.samples y.toNat x.toNat + cx_depth),
                           pyInt ((((y : ℚ) - cy_rgb) * f3.samples y.toNat x.toNat / fy_rgb) *
                              fy_depth / f3.samples y.toNat x.toNat + cy_depth),
                           f3.samples y.toNat x.toNat)
                    else .ok (-1, -1, -1)
                  else .exn
              else .ok (-1, -1, -1)
          else .ok (-1, -1, -1)
        else .ok (-1, -1, -1)
    else .ok (-1, -1, -1)

/-! ## Concrete fixtures used by witnesses and counterexamples -/

/-- A depth frame covering the spec's reference input: constant 1.5 m. -/
def refFrame : DepthFrame := ⟨361, 641, fun _ _ => 3 / 2⟩

/-- A small valid depth frame (constant 1 m). -/
def frameA : DepthFrame := ⟨2, 2, fun _ _ => 1⟩

/-- A depth message carrying an encoding that is neither `16UC1` nor
`32FC1`. -/
def badMsg : DepthMsg := ⟨"rgb8", 2, 2, some fun _ _ => 1⟩

/-- A frame whose every sample is the unknown marker `0`. -/
def zeroFrame : DepthFrame := ⟨2, 2, fun _ _ => 0⟩

/-- A constant decoded sample array. -/
def rawC : ℕ → ℕ → ℚ := fun _ _ => 7

/-- A well-formed `16UC1` (millimeter) depth message. -/
def msg16 : DepthMsg := ⟨"16UC1", 2, 3, some rawC⟩

/-- A well-formed `32FC1` (float meter) depth message. -/
def msg32 : DepthMsg := ⟨"32FC1", 2, 3, some rawC⟩

/-- A 1x2 frame observed by the bounds test of the racy run. -/
def wideFrame : DepthFrame := ⟨1, 2, fun _ _ => 2⟩

/-- A 1x1 frame swapped in before the indexing read of the racy run. -/
def narrowFrame : DepthFrame := ⟨1, 1, fun _ _ => 2⟩

/-- The store value seen by each read of the racy run: the depth
callback replaces the frame between the bounds reads and the indexing
read. -/
def racyReads : ℕ → Option DepthFrame := fun k =>
  if k < 3 then some wideFrame else some narrowFrame

/-! ## Helper lemmas -/

/-- `fx_rgb` is nonzero. -/
lemma fx_rgb_ne : fx_rgb ≠ 0 := by unfold fx_rgb; norm_num

/-- `fy_rgb` is nonzero. -/
lemma fy_rgb_ne : fy_rgb ≠ 0 := by unfold fy_rgb; norm_num

/-- The depth sample cancels between the color back-projection and the
depth reprojection. -/
lemma reproj_cancel (a b c d Z : ℚ) (hZ : Z ≠ 0) (hc : c ≠ 0) :
    a * Z / c * b / Z + d = a * b / c + d := by
  field_simp
  ring

/-- Truncation of a nonnegative value is nonnegative. -/
lemma pyInt_nonneg {q : ℚ} (h : 0 ≤ q) : 0 ≤ pyInt q := by
  rw [pyInt, if_pos h]
  exact Int.le_floor.mpr (by exact_mod_cast h)

/-- On an in-bounds pixel with positive sample, `project` returns the
truncated reprojection, with the sample `Z` cancelled. -/
lemma project_pos (f : DepthFrame) (x y : ℤ)
    (hb : 0 ≤ x ∧ x < (f.width : ℤ) ∧ 0 ≤ y ∧ y < (f.height : ℤ))
    (hZ : 0 < f.samples y.toNat x.toNat) :
    project (some f) x y =
      (pyInt (((x : ℚ) - cx_rgb) * fx_depth / fx_rgb + cx_depth),
       pyInt (((y : ℚ) - cy_rgb) * fy_depth / fy_rgb + cy_depth),
       f.samples y.toNat x.toNat) := by
  simp only [project]
  rw [if_pos hb, if_pos hZ,
    reproj_cancel _ _ _ _ _ (ne_of_gt hZ) fx_rgb_ne,
    reproj_cancel _ _ _ _ _ (ne_of_gt hZ) fy_rgb_ne]

/-- The depth-camera x reprojection of any pixel with `x ≥ 0` is
nonnegative for the node's hard-coded intrinsics. -/
lemma reproj_x_nonneg (x : ℤ) (hx : 0 ≤ x) :
    0 ≤ ((x : ℚ) - cx_rgb) * fx_depth / fx_rgb + cx_depth := by
  have hx' : (0 : ℚ) ≤ (x : ℚ) := by exact_mod_cast hx
  unfold cx_rgb fx_depth fx_rgb cx_depth
  nlinarith [hx']

/-- The depth-camera y reprojection of any pixel with `y ≥ 0` is
nonnegative for the node's hard-coded intrinsics. -/
lemma reproj_y_nonneg (y : ℤ) (hy : 0 ≤ y) :
    0 ≤ ((y : ℚ) - cy_rgb) * fy_depth / fy_rgb + cy_depth := by
  have hy' : (0 : ℚ) ≤ (y : ℚ) := by exact_mod_cast hy
  unfold cy_rgb fy_depth fy_rgb cy_depth
  nlinarith [hy']

/-- Both coordinates of a successful projection are nonnegative. -/
lemma project_coords_nonneg (f : DepthFrame) (x y : ℤ)
    (hb : 0 ≤ x ∧ x < (f.width : ℤ) ∧ 0 ≤ y ∧ y < (f.height : ℤ))
    (hZ : 0 < f.samples y.toNat x.toNat) :
    0 ≤ (project (some f) x y).1 ∧ 0 ≤ (project (some f) x y).2.1 := by
  rw [project_pos f x y hb hZ]
  exact ⟨pyInt_nonneg (reproj_x_nonneg x hb.1),
    pyInt_nonneg (reproj_y_nonneg y hb.2.2.1)⟩

/-- The detection loop is the order-preserving filter to class id 41,
each retained box paired with the projection of its integer center. -/
lemma processDetections_eq_filter (st : Option DepthFrame) (dets : List Detection) :
    processDetections st dets =
      (dets.filter fun d => d.cls == 41).map
        fun d => (d, project st ((d.x1 + d.x2).fdiv 2) ((d.y1 + d.y2).fdiv 2)) := by
  induction dets with
  | nil => rfl
  | cons d rest ih =>
    by_cases h : d.cls = 41
    · simp [processDetections, List.filter_cons, h, ih]
    · simp [processDetections, List.filter_cons, h, ih]

/-! ## Claims -/

/-- C1 (counterexample): ingesting a message with an unsupported encoding
after a successful ingest does not leave the previously stored frame in
place — `depth_callback` clears the store. -/
theorem C1_counterexample :
    depth_callback (some frameA) badMsg = none ∧
      (none : Option DepthFrame) ≠ some frameA := by
  exact ⟨rfl, by simp⟩

/-- C1 (amended): an ingest whose message carries an encoding other than
`16UC1` or `32FC1`, or whose decode raises, leaves the store holding
`None` — the previous frame is discarded, not retained. -/
theorem C1_thm (st : Option DepthFrame) (msg : DepthMsg)
    (h : (msg.encoding ≠ "16UC1" ∧ msg.encoding ≠ "32FC1") ∨ msg.decoded = none) :
    depth_callback st msg = none := by
  rcases h with ⟨h1, h2⟩ | hd
  · unfold depth_callback
    rw [if_neg h1, if_neg h2]
  · unfold depth_callback
    rw [hd]
    split_ifs <;> rfl

/-- C1 (witness): the amended statement at a concrete failed ingest. -/
theorem C1_witness : depth_callback (some frameA) badMsg = none :=
  C1_thm (some frameA) badMsg (Or.inl ⟨by decide, by decide⟩)

/-- C2 (counterexample): at the spec's reference input — pixel
`(640, 360)`, constant depth 1.5 m — the code returns depth pixel
`(249, 171)`, but the claimed `round`-based reprojection gives y-pixel
172, so the claim fails at this input. -/
theorem C2_counterexample :
    project (some refFrame) 640 360 = (249, 171, 3 / 2) ∧
    round ((((360 : ℚ) - cy_rgb) * (3 / 2) / fy_rgb) * fy_depth / (3 / 2) + cy_depth) = 172 ∧
    project (some refFrame) 640 360 ≠ (249, 172, 3 / 2) := by
  refine ⟨?_, ?_, ?_⟩
  · norm_num [project, refFrame, pyInt, fx_rgb, fy_rgb, cx_rgb, cy_rgb,
      fx_depth, fy_depth, cx_depth, cy_depth]
  · rw [round_eq]
    norm_num [fy_rgb, cy_rgb, fy_depth, cy_depth]
  · rw [show project (some refFrame) 640 360 = (249, 171, 3 / 2) by
      norm_num [project, refFrame, pyInt, fx_rgb, fy_rgb, cx_rgb, cy_rgb,
        fx_depth, fy_depth, cx_depth, cy_depth]]
    simp

/-- C2 (amended): for every in-bounds color pixel whose depth sample `Z`
is positive, `project` returns the reprojection truncated toward zero by
Python `int()` (not rounded to nearest): the coordinates are
`int(X * focalX_depth / Z + principalX_depth)` with
`X = (pixelColorX - principalX_color) * Z / focalX_color` (and likewise
for y), in which `Z` cancels, and the distance is `Z`; at the reference
input `(640, 360)` with `Z = 1.5` this yields `(249, 171)`, not
`(249, 172)`. -/
theorem C2_thm (f : DepthFrame) (x y : ℤ)
    (hb : 0 ≤ x ∧ x < (f.width : ℤ) ∧ 0 ≤ y ∧ y < (f.height : ℤ))
    (hZ : 0 < f.samples y.toNat x.toNat) :
    project (some f) x y =
      (pyInt ((((x : ℚ) - cx_rgb) * f.samples y.toNat x.toNat / fx_rgb) *
          fx_depth / f.samples y.toNat x.toNat + cx_depth),
       pyInt ((((y : ℚ) - cy_rgb) * f.samples y.toNat x.toNat / fy_rgb) *
          fy_depth / f.samples y.toNat x.toNat + cy_depth),
       f.samples y.toNat x.toNat) ∧
    project (some f) x y =
      (pyInt (((x : ℚ) - cx_rgb) * fx_depth / fx_rgb + cx_depth),
       pyInt (((y : ℚ) - cy_rgb) * fy_depth / fy_rgb + cy_depth),
       f.samples y.toNat x.toNat) := by
  constructor
  · simp only [project]
    rw [if_pos hb, if_pos hZ]
  · exact project_pos f x y hb hZ

/-- C2 (witness): the amended statement at the reference input. -/
theorem C2_witness :
    project (some refFrame) 640 360 =
      (pyInt (((640 : ℚ) - cx_rgb) * fx_depth / fx_rgb + cx_depth),
       pyInt (((360 : ℚ) - cy_rgb) * fy_depth / fy_rgb + cy_depth),
       refFrame.samples 360 640) :=
  (C2_thm refFrame 640 360 (by decide) (by norm_num [refFrame])).2

/-- C3 (counterexample): there is no in-bounds pixel with a positive
depth sample at which `project` yields `-1` in either coordinate: with
the node's hard-coded intrinsics the truncated reprojection of a
nonnegative pixel is always nonnegative, so the claimed collision with
the `(-1, -1, -1)` sentinel cannot occur. -/
theorem C3_counterexample :
    ¬ ∃ (f : DepthFrame) (x y : ℤ),
        (0 ≤ x ∧ x < (f.width : ℤ) ∧ 0 ≤ y ∧ y < (f.height : ℤ)) ∧
        0 < f.samples y.toNat x.toNat ∧
        ((project (some f) x y).1 = -1 ∨ (project (some f) x y).2.1 = -1) := by
  rintro ⟨f, x, y, hb, hZ, hbad⟩
  have h := project_coords_nonneg f x y hb hZ
  rcases hbad with h1 | h1 <;> omega

/-- C3 (amended): every successful projection has nonnegative
coordinates, so a valid projection is never equal to the
`(-1, -1, -1)` NoDepth sentinel and the caller's `!= -1` success test
never misclassifies it. -/
theorem C3_thm (f : DepthFrame) (x y : ℤ)
    (hb : 0 ≤ x ∧ x < (f.width : ℤ) ∧ 0 ≤ y ∧ y < (f.height : ℤ))
    (hZ : 0 < f.samples y.toNat x.toNat) :
    0 ≤ (project (some f) x y).1 ∧ 0 ≤ (project (some f) x y).2.1 ∧
      project (some f) x y ≠ (-1, -1, -1) := by
  have h := project_coords_nonneg f x y hb hZ
  refine ⟨h.1, h.2, fun hc => ?_⟩
  rw [hc] at h
  exact absurd h.1 (by norm_num)

/-- C3 (witness): the amended statement at the reference input. -/
theorem C3_witness :
    0 ≤ (project (some refFrame) 640 360).1 ∧
      0 ≤ (project (some refFrame) 640 360).2.1 ∧
      project (some refFrame) 640 360 ≠ (-1, -1, -1) :=
  C3_thm refFrame 640 360 (by decide) (by norm_num [refFrame])

/-- C4: a pixel outside `[0, width) × [0, height)` of the depth frame —
the color pixel compared directly against the depth frame's own shape,
before any camera transform — yields the NoDepth sentinel regardless of
any sample value; moreover `project` never reads a sample outside those
bounds: its result is unchanged by altering any out-of-bounds sample. -/
theorem C4_thm :
    (∀ (f : DepthFrame) (x y : ℤ),
        ¬(0 ≤ x ∧ x < (f.width : ℤ) ∧ 0 ≤ y ∧ y < (f.height : ℤ)) →
          project (some f) x y = (-1, -1, -1)) ∧
    (∀ (f g : DepthFrame) (x y : ℤ), f.width = g.width → f.height = g.height →
        (∀ i j, i < f.width → j < f.height → f.samples j i = g.samples j i) →
          project (some f) x y = project (some g) x y) := by
  constructor
  · intro f x y h
    simp only [project]
    rw [if_neg h]
  · intro f g x y hw hh hs
    simp only [project]
    by_cases hb : 0 ≤ x ∧ x < (f.width : ℤ) ∧ 0 ≤ y ∧ y < (f.height : ℤ)
    · have hb2 : 0 ≤ x ∧ x < (g.width : ℤ) ∧ 0 ≤ y ∧ y < (g.height : ℤ) := by
        rw [← hw, ← hh]; exact hb
      have hsam : f.samples y.toNat x.toNat = g.samples y.toNat x.toNat := by
        refine hs x.toNat y.toNat ?_ ?_ <;> omega
      rw [if_pos hb, if_pos hb2, hsam]
    · have hb2 : ¬(0 ≤ x ∧ x < (g.width : ℤ) ∧ 0 ≤ y ∧ y < (g.height : ℤ)) := by
        rw [← hw, ← hh]; exact hb
      rw [if_neg hb, if_neg hb2]

/-- C5: an in-bounds pixel whose depth sample is `≤ 0` (including the
zero unknown marker) yields the NoDepth sentinel, not a distance. -/
theorem C5_thm (f : DepthFrame) (x y : ℤ)
    (hb : 0 ≤ x ∧ x < (f.width : ℤ) ∧ 0 ≤ y ∧ y < (f.height : ℤ))
    (hZ : f.samples y.toNat x.toNat ≤ 0) :
    project (some f) x y = (-1, -1, -1) := by
  simp only [project]
  rw [if_pos hb, if_neg (not_lt.mpr hZ)]

/-- C5 (witness): the statement at a frame of unknown (zero) samples. -/
theorem C5_witness : project (some zeroFrame) 0 0 = (-1, -1, -1) :=
  C5_thm zeroFrame 0 0 (by decide) (by norm_num [zeroFrame])

/-- C6: for every pixel and every `Z > 0`, back-projecting through the
color intrinsics and inverse-projecting the 3-D point back through the
same intrinsics reproduces the pixel exactly (hence within any rounding
tolerance). -/
theorem C6_thm (x y Z : ℚ) (hZ : 0 < Z) :
    colorReprojectX (backProjectX x Z) Z = x ∧
      colorReprojectY (backProjectY y Z) Z = y := by
  have hZn : Z ≠ 0 := ne_of_gt hZ
  constructor
  · unfold colorReprojectX backProjectX fx_rgb cx_rgb
    field_simp
    ring
  · unfold colorReprojectY backProjectY fy_rgb cy_rgb
    field_simp
    ring

/-- C6 (witness): the round trip at pixel `(5, 7)`, `Z = 2`. -/
theorem C6_witness :
    colorReprojectX (backProjectX 5 2) 2 = 5 ∧
      colorReprojectY (backProjectY 7 2) 2 = 7 :=
  C6_thm 5 7 2 (by norm_num)

/-- C7: a successfully ingested `16UC1` message is stored with every
sample scaled by `0.001` (millimeters to meters); a successfully
ingested `32FC1` message is stored with its samples unchanged. -/
theorem C7_thm (st : Option DepthFrame) (msg : DepthMsg) (raw : ℕ → ℕ → ℚ)
    (h : msg.decoded = some raw) :
    (msg.encoding = "16UC1" →
      depth_callback st msg =
        some ⟨msg.height, msg.width, fun j i => raw j i * (1 / 1000)⟩) ∧
    (msg.encoding = "32FC1" →
      depth_callback st msg = some ⟨msg.height, msg.width, raw⟩) := by
  constructor
  · intro he
    unfold depth_callback
    rw [if_pos he, h]
  · intro he
    unfold depth_callback
    rw [if_neg (by rw [he]; decide), if_pos he, h]

/-- C7 (witness): the statement at concrete messages of each encoding. -/
theorem C7_witness :
    depth_callback none msg16 = some ⟨2, 3, fun j i => rawC j i * (1 / 1000)⟩ ∧
      depth_callback none msg32 = some ⟨2, 3, rawC⟩ :=
  ⟨(C7_thm none msg16 rawC rfl).1 rfl, (C7_thm none msg32 rawC rfl).2 rfl⟩

/-- C8: the detection loop's output is exactly the detections of class
id 41, in their original relative order, each paired with the projection
of its integer center `((x1+x2)//2, (y1+y2)//2)` against the current
store snapshot; all other detections are dropped. -/
theorem C8_thm (st : Option DepthFrame) (dets : List Detection) :
    processDetections st dets =
      (dets.filter fun d => d.cls == 41).map
        fun d => (d, project st ((d.x1 + d.x2).fdiv 2) ((d.y1 + d.y2).fdiv 2)) :=
  processDetections_eq_filter st dets

/-- C9: the store holds `None` before any ingest, `project` on the empty
store returns the NoDepth sentinel for every pixel, and color-frame
processing with no depth ever received attaches the sentinel to every
retained detection rather than erring. -/
theorem C9_thm :
    initial_depth_image = none ∧
    (∀ x y : ℤ, project initial_depth_image x y = (-1, -1, -1)) ∧
    ∀ dets : List Detection, ∀ pr ∈ processDetections initial_depth_image dets,
      pr.2 = (-1, -1, -1) := by
  refine ⟨rfl, fun x y => rfl, ?_⟩
  intro dets pr hpr
  rw [processDetections_eq_filter] at hpr
  simp only [List.mem_map] at hpr
  obtain ⟨d, _, rfl⟩ := hpr
  rfl

/-- C10 (counterexample): with the depth callback swapping a 1x2 frame
for a 1x1 frame between the bounds reads and the indexing read, the run
at pixel `(1, 0)` raises (the bounds test passed against the old frame,
the index is out of range of the new one) — an outcome that no single
consistent snapshot of the store can produce, so the pass does not use
one frame throughout. -/
theorem C10_counterexample :
    projectReads racyReads 1 0 = RunResult.exn ∧
      ¬ ∃ st : Option DepthFrame,
        projectReads racyReads 1 0 = RunResult.ok (project st 1 0) := by
  refine ⟨by decide, ?_⟩
  rintro ⟨st, h⟩
  rw [show projectReads racyReads 1 0 = RunResult.exn by decide] at h
  exact RunResult.noConfusion h

/-- C10 (amended): the snapshot property holds only in the absence of a
mid-pass replacement: when every read of `self.depth_image` observes the
same store value, the racy execution returns exactly the pure
`project` of that snapshot. -/
theorem C10_thm (st : Option DepthFrame) (x y : ℤ) :
    projectReads (fun _ => st) x y = RunResult.ok (project st x y) := by
  cases st with
  | none => rfl
  | some f =>
    simp only [projectReads, project]
    by_cases hx0 : 0 ≤ x
    · rw [if_pos hx0]
      by_cases hxw : x < (f.width : ℤ)
      · rw [if_pos hxw]
        by_cases hy0 : 0 ≤ y
        · rw [if_pos hy0]
          by_cases hyh : y < (f.height : ℤ)
          · rw [if_pos hyh, if_pos (show y.toNat < f.height ∧ x.toNat < f.width by omega),
              if_pos (show 0 ≤ x ∧ x < (f.width : ℤ) ∧ 0 ≤ y ∧ y < (f.height : ℤ) from
                ⟨hx0, hxw, hy0, hyh⟩)]
            by_cases hZ : 0 < f.samples y.toNat x.toNat
            · rw [if_pos hZ, if_pos hZ]
            · rw [if_neg hZ, if_neg hZ]
          · rw [if_neg hyh,
              if_neg (show ¬(0 ≤ x ∧ x < (f.width : ℤ) ∧ 0 ≤ y ∧ y < (f.height : ℤ)) by
                tauto)]
        · rw [if_neg hy0,
            if_neg (show ¬(0 ≤ x ∧ x < (f.width : ℤ) ∧ 0 ≤ y ∧ y < (f.height : ℤ)) by
              tauto)]
      · rw [if_neg hxw,
          if_neg (show ¬(0 ≤ x ∧ x < (f.width : ℤ) ∧ 0 ≤ y ∧ y < (f.height : ℤ)) by
            tauto)]
    · rw [if_neg hx0,
        if_neg (show ¬(0 ≤ x ∧ x < (f.width : ℤ) ∧ 0 ≤ y ∧ y < (f.height : ℤ)) by
          tauto)]

end YoloDepth
